import Mathlib

/-!
Verification of the zenpy object-resolution, caching and pagination engine
(`zenpy/lib/api.py`) against its specification.

The Python code is shallowly embedded: JSON values become the inductive
`JVal`, dictionaries become association lists in document order, raised
exceptions become `Except PyError`, and side effects on the object caches
and on the HTTP transport are made explicit as logs of insertions and
fetches carried in the return values.
-/

set_option autoImplicit false

namespace Zenpy

/-- A JSON-like Python value, as produced by `response.json()`. -/
inductive JVal where
  | null
  | bool (b : Bool)
  | num (n : Int)
  | str (s : String)
  | arr (l : List JVal)
  | obj (o : List (String × JVal))

/-- A Python dictionary with string keys, in document order. -/
abbrev JObj := List (String × JVal)

/-- Python exceptions that the embedded code can raise. -/
inductive PyError where
  | keyError (k : String)
  | attributeError (a : String)
  | typeError
  | indexError
  | stopIteration
  | exception (msg : String)

/-- First-match association-list lookup (Python dict indexing on string keys). -/
def alookup {α : Type} : List (String × α) → String → Option α
  | [], _ => none
  | (k', v) :: rest, k => if k' = k then some v else alookup rest k

/-- Python `d[k]` on a dictionary value: `KeyError` when the key is absent. -/
def jget (o : JObj) (k : String) : Option JVal :=
  alookup o k

/-- Python `v[k]` with a string subscript: key lookup on a dict, `TypeError` on any
other value (list/str need integer indices, numbers are not subscriptable). -/
def jGetItemV (v : JVal) (k : String) : Except PyError JVal :=
  match v with
  | .obj o =>
    match jget o k with
    | some x => .ok x
    | none => .error (.keyError k)
  | _ => .error .typeError

/-- Python `d.get(k)` on a dict: the value, or Python `None` when the key is absent;
`AttributeError` when the receiver is not a dict (lists have no `get`). -/
def dictGetD (v : JVal) (k : String) : Except PyError JVal :=
  match v with
  | .obj o => .ok ((jget o k).getD .null)
  | _ => .error (.attributeError "get")

/-- Python truthiness: `None`, `False`, `0`, and empty containers are falsy. -/
def pyTruthy : JVal → Bool
  | .null => false
  | .bool b => b
  | .num n => n != 0
  | .str s => s ≠ ""
  | .arr l => !l.isEmpty
  | .obj o => !o.isEmpty

/-- Python `len(v)`: defined on sequences and mappings, `TypeError` otherwise. -/
def pyLen : JVal → Except PyError Nat
  | .arr l => .ok l.length
  | .str s => .ok s.length
  | .obj o => .ok o.length
  | _ => .error .typeError

/-- Python `v[i]` with a non-negative integer index on a list. -/
def pyIndex (v : JVal) (i : Nat) : Except PyError JVal :=
  match v with
  | .arr l =>
    match l.get? i with
    | some x => .ok x
    | none => .error .indexError
  | _ => .error .typeError

/-- Substring test, used for `needle in haystackString`. -/
def strContainsSub (hay needle : String) : Bool :=
  (List.range (hay.toList.length + 1)).any
    (fun i => needle.toList.isPrefixOf (hay.toList.drop i))

/-- Python `k in v` for a string `k`: key membership on a dict, element
membership on a list, substring test on a string, `TypeError` otherwise. -/
def jContains (v : JVal) (k : String) : Except PyError Bool :=
  match v with
  | .obj o => .ok (jget o k).isSome
  | .arr l =>
    .ok (l.any (fun x => match x with | .str s => s = k | _ => false))
  | .str s => .ok (strContainsSub s k)
  | _ => .error .typeError

/-! ## Object mapping (`BaseApi._object_from_json`, lines 271-277) -/

/-- The field names renamed by `_object_from_json` (line 274). -/
def reservedNames : List String := ["results", "metadata", "from"]

/-- Line 274-275: a reserved field name is stored under `_<name>`. -/
def renameKey (k : String) : String :=
  if k ∈ reservedNames then "_" ++ k else k

/-- Python `setattr(obj, k, v)` on the attribute mapping: overwrite an existing
attribute in place, otherwise append a new one. -/
def setattr (attrs : JObj) (k : String) (v : JVal) : JObj :=
  if (attrs.map Prod.fst).contains k then
    attrs.map (fun kv => if kv.1 = k then (k, v) else kv)
  else attrs ++ [(k, v)]

/-- The attribute mapping built by the `for key, value in
object_json.iteritems()` loop of `_object_from_json` (lines 273-276).
The constructed entity's attributes are exactly these fields: the entity
classes (zenpy/lib/objects/*) are not part of the analysed source, and per
spec §3 an Entity is "a set of typed fields populated from JSON"; the `api`
back-reference the constructor receives is erased to `null` by
`ApiObjectEncoder` and carries no payload field. -/
def object_from_json_fields (o : JObj) : JObj :=
  o.foldl (fun attrs kv => setattr attrs (renameKey kv.1) kv.2) []

/-- Python `_object_from_json(clazz, v)`: iterating `v.iteritems()` requires a dict;
any other value raises `AttributeError`. -/
def object_from_json_v (v : JVal) : Except PyError JObj :=
  match v with
  | .obj o => .ok (object_from_json_fields o)
  | _ => .error (.attributeError "iteritems")

/-! ## Type registry and caches (lines 50-85, 285-326) -/

/-- The keys of `class_mapping` (lines 68-85). -/
def class_mapping_keys : List String :=
  ["ticket", "user", "organization", "group", "brand", "topic", "comment",
   "attachment", "thumbnail", "metadata", "system", "create", "notification",
   "via", "source", "job_status"]

/-- Python `class_for_type` (lines 261-265): `Exception` on an unknown type name. -/
def class_for_type (t : String) : Except PyError Unit :=
  if class_mapping_keys.contains t then .ok ()
  else .error (.exception ("Unknown object_type: " ++ t))

/-- Python `class_for_type` applied to a dynamically obtained (possibly non-string)
type value, as after `item_json.pop('result_type')`. -/
def class_for_type_v (tv : JVal) : Except PyError String :=
  match tv with
  | .str t =>
    if class_mapping_keys.contains t then .ok t
    else .error (.exception ("Unknown object_type: " ++ t))
  | _ => .error (.exception "Unknown object_type: nonstring")

/-- The keys of `cache_mapping` (lines 59-66), in literal order. -/
def cacheableTypes : List String :=
  ["user", "organization", "group", "brand", "ticket", "comment"]

/-- Python `skip_cache` (line 57). -/
def skip_cache : List String := ["job_status"]

/-- Python `object_from_json(object_type, v)` (lines 267-269). -/
def map_object (t : String) (v : JVal) : Except PyError JObj := do
  let _ ← class_for_type t
  object_from_json_v v

/-- One cache write, recorded as (cache type, raw id value, entity fields). -/
structure Insertion where
  cacheType : String
  id : JVal
  entity : JObj

/-- Python `_cache_item` (lines 164-165): `cache[item_json['id']] =
self._object_from_json(item_type, item_json)`.  Python evaluates the
right-hand side before the subscript, so the mapping runs first. -/
def cache_item (t : String) (item : JVal) : Except PyError Insertion := do
  let e ← object_from_json_v item
  let idv ← jGetItemV item "id"
  pure ⟨t, idv, e⟩

/-- Python `add_to_cache` (lines 296-310).  The first statement,
`cache = self.cache_mapping[object_type]`, raises `KeyError` for any type
outside `cache_mapping` — there is no `skip_cache` guard here. -/
def add_to_cache (t : String) (js : JVal) : Except PyError (List Insertion) := do
  if !cacheableTypes.contains t then throw (.keyError t)
  let _ ← class_for_type t
  let multiple := t ++ "s"
  if ← jContains js t then
    let obj ← jGetItemV js t
    -- line 303: the log call interpolates obj['id'] before _cache_item runs
    let _ ← jGetItemV obj "id"
    let ins ← cache_item t obj
    pure [ins]
  else if ← jContains js multiple then
    let objs ← jGetItemV js multiple
    -- line 308: the log call evaluates len(objects)
    let _ ← pyLen objs
    let elems ← match objs with
      | .arr l => pure l
      | .str s => pure (s.toList.map (fun c => JVal.str (String.singleton c)))
      | .obj o => pure (o.map (fun kv => JVal.str kv.1))
      | _ => throw PyError.typeError
    elems.mapM (cache_item t)
  else
    pure []

/-- Python `cache_search_results` (lines 319-326): routes each result by its
`result_type` tag to the matching class and cache. -/
def cache_search_results (js : JVal) : Except PyError (List Insertion) := do
  let results ← jGetItemV js "results"
  let _ ← pyLen results
  let elems ← match results with
    | .arr l => pure l
    | .str s => pure (s.toList.map (fun c => JVal.str (String.singleton c)))
    | .obj o => pure (o.map (fun kv => JVal.str kv.1))
    | _ => throw PyError.typeError
  elems.mapM (fun result => do
    let tv ← jGetItemV result "result_type"
    let t ← match tv with
      | .str t => pure t
      | _ => throw (.keyError "result_type value")
    if !class_mapping_keys.contains t then throw (.keyError t)
    if !cacheableTypes.contains t then throw (.keyError t)
    cache_item t result)

/-- Python `update_caches` (lines 312-317).  The `for object_type in
self.cache_mapping.keys()` loop is modelled in the literal order of the
`cache_mapping` initialiser; the claims below do not depend on the order. -/
def update_caches_v (js : JVal) : Except PyError (List Insertion) := do
  if ← jContains js "results" then
    cache_search_results js
  else do
    let lists ← cacheableTypes.mapM (fun t => add_to_cache t js)
    pure lists.flatten

/-- Python `query_cache` (lines 285-294).  The cache contents are abstracted as a
function from (type, id) to an optional cached entity; `cache_mapping[t]`
raises `KeyError` for a type outside the cacheable set, and a miss returns
`None` (the implicit return of the `else` branch). -/
def query_cache (cache : String → Int → Option JObj) (t : String) (id : Int) :
    Except PyError (Option JObj) :=
  if skip_cache.contains t then .ok none
  else if cacheableTypes.contains t then .ok (cache t id)
  else .error (.keyError t)

/-! ## ResultGenerator (lines 399-448) -/

/-- Python `ResultGenerator.endpoint_mapping` (lines 404-412). -/
def endpoint_mapping : List (String × String) :=
  [("user", "users"), ("ticket", "tickets"), ("group", "groups"),
   ("results", "results"), ("organization", "organizations"),
   ("topic", "topics"), ("comment", "comments")]

/-- ResultGenerator state: `self._json`, `self.values`, `self.position`,
`self.result_key` (lines 399-418). -/
structure RGen where
  json : JVal
  values : JVal
  position : Nat
  result_key : String

/-- Python `ResultGenerator.__init__` (lines 414-418):
`self.result_key = self.endpoint_mapping[result_key]` raises `KeyError` for
an unmapped key, then `self.values = _json[self.result_key]`. -/
def rgenInit (result_key : String) (js : JVal) : Except PyError RGen :=
  match alookup endpoint_mapping result_key with
  | none => .error (.keyError result_key)
  | some rk =>
    match jGetItemV js rk with
    | .error e => .error e
    | .ok v => .ok ⟨js, v, 0, rk⟩

/-- The observable outcome of one `next()` call: the returned entity (or the
raised exception), the generator's state afterwards, the cache insertions
performed, and the URLs fetched through the Transport. -/
structure NextResult where
  ret : Except PyError JObj
  gen : RGen
  inserts : List Insertion
  fetches : List String

/-- Python `ResultGenerator.next` (lines 428-448).

Pagination branch: line 431 tests `self._json.get('next_page')` (truthiness),
but line 432 then evaluates `self._json._get('next_page')` as the argument of
`self.get_as_json`; a dict has no attribute `_get`, so `AttributeError` is
raised while building the argument, before any request is issued — the
Transport is never reached, hence the fetch log is empty on every path.

Line 442 passes the drawn item's raw json to `self.api.update_caches`; line
443 increments the position; lines 444-447 pop a `result_type` tag (the
`pop` removes the key before mapping; mutating the shared item is
unobservable here since the pagination that could revisit it always raises).
`self.result_key[:-1]` drops the key's last character. -/
def RGen.next (g : RGen) : NextResult :=
  match pyLen g.values with
  | .error e => ⟨.error e, g, [], []⟩
  | .ok len =>
    if g.position ≥ len then
      match dictGetD g.json "next_page" with
      | .error e => ⟨.error e, g, [], []⟩
      | .ok v =>
        if pyTruthy v then ⟨.error (.attributeError "_get"), g, [], []⟩
        else ⟨.error .stopIteration, g, [], []⟩
    else
      -- line 438: `if not self.values: raise StopIteration()`
      if !pyTruthy g.values then ⟨.error .stopIteration, g, [], []⟩
      else
        match pyIndex g.values g.position with
        | .error e => ⟨.error e, g, [], []⟩
        | .ok item =>
          match update_caches_v item with
          | .error e => ⟨.error e, g, [], []⟩
          | .ok ins =>
            let g' : RGen := { g with position := g.position + 1 }
            match item with
            | .obj o =>
              match jget o "result_type" with
              | some tv =>
                -- `item_json.pop('result_type')` removes the key
                let o' := o.filter (fun kv => kv.1 ≠ "result_type")
                let ret := do
                  let t ← class_for_type_v tv
                  map_object t (.obj o')
                ⟨ret, g', ins, []⟩
              | none =>
                ⟨map_object (g.result_key.dropRight 1) item, g', ins, []⟩
            | .arr l =>
              -- `'result_type' in list` is membership; `list.pop(str)` is a
              -- TypeError when the tag is "present", and otherwise the
              -- default type maps the list (failing at `.iteritems()`)
              if l.any (fun x => match x with
                                 | .str s => s = "result_type"
                                 | _ => false) then
                ⟨.error .typeError, g', ins, []⟩
              else ⟨map_object (g.result_key.dropRight 1) item, g', ins, []⟩
            | .str s =>
              -- `'result_type' in str` is a substring test; `str.pop` is an
              -- AttributeError
              if strContainsSub s "result_type" then
                ⟨.error (.attributeError "pop"), g', ins, []⟩
              else ⟨map_object (g.result_key.dropRight 1) item, g', ins, []⟩
            | _ => ⟨.error .typeError, g', ins, []⟩

/-! ## EntityApi lookup orchestration (lines 95-133) -/

/-- The keyword arguments a `SimpleApi.__call__` forwards to `get_items`. -/
structure Kwargs where
  id : Option Int
  ids : Option (List Int)

/-- One network request issued through the Transport collaborator: a
single-item fetch (`endpoint(id=...)`) or a filtered/paginated query
(`endpoint(**kwargs)`). -/
inductive Fetch where
  | byId (id : Int)
  | pageQuery (kw : Kwargs)

/-- What a lookup operation hands back to the caller. -/
inductive ApiResult where
  | entity (e : JObj)
  | generator (g : RGen)
  | entities (es : List JObj)

/-- Outcome of a lookup: result (or raised exception), network fetches
issued, cache insertions performed. -/
structure ApiOutcome where
  result : Except PyError ApiResult
  fetches : List Fetch
  inserts : List Insertion

/-- Python `get_paginated` (lines 111-114): one `_query` through the Transport,
then `update_caches` on the raw page, then a `ResultGenerator` over it. -/
def get_paginated (transport : Fetch → JVal) (kw : Kwargs) (t : String) :
    ApiOutcome :=
  let js := transport (.pageQuery kw)
  match update_caches_v js with
  | .error e => ⟨.error e, [.pageQuery kw], []⟩
  | .ok ins =>
    match rgenInit t js with
    | .error e => ⟨.error e, [.pageQuery kw], ins⟩
    | .ok g => ⟨.ok (.generator g), [.pageQuery kw], ins⟩

/-- Python `get_item` (lines 116-133): explicit cache check first; on a miss one
`_query`; a response containing `next_page` becomes a `ResultGenerator`
(without touching the caches), otherwise the response is cached and the
value under the type key is mapped to a single entity. -/
def get_item (cache : String → Int → Option JObj) (transport : Fetch → JVal)
    (t : String) (id : Int) : ApiOutcome :=
  match query_cache cache t id with
  | .error e => ⟨.error e, [], []⟩
  | .ok (some obj) => ⟨.ok (.entity obj), [], []⟩
  | .ok none =>
    let js := transport (.byId id)
    match jContains js "next_page" with
    | .error e => ⟨.error e, [.byId id], []⟩
    | .ok true =>
      match rgenInit t js with
      | .error e => ⟨.error e, [.byId id], []⟩
      | .ok g => ⟨.ok (.generator g), [.byId id], []⟩
    | .ok false =>
      match update_caches_v js with
      | .error e => ⟨.error e, [.byId id], []⟩
      | .ok ins =>
        match class_for_type t with
        | .error e => ⟨.error e, [.byId id], ins⟩
        | .ok _ =>
          match jGetItemV js t with
          | .error e => ⟨.error e, [.byId id], ins⟩
          | .ok v =>
            match object_from_json_v v with
            | .error e => ⟨.error e, [.byId id], ins⟩
            | .ok e => ⟨.ok (.entity e), [.byId id], ins⟩

/-- The `for id in kwargs['ids']` loop of `get_items` (lines 100-107): each
id is looked up in the cache; the first miss abandons the accumulated
cached objects and falls back to `get_paginated` with the original kwargs
(covering the whole id set); if every id hits, the cached objects are
returned with no network traffic. -/
def get_items_ids_go (cache : String → Int → Option JObj)
    (transport : Fetch → JVal) (t : String) (kw : Kwargs) :
    List Int → List JObj → ApiOutcome
  | [], acc => ⟨.ok (.entities acc), [], []⟩
  | i :: rest, acc =>
    match query_cache cache t i with
    | .error e => ⟨.error e, [], []⟩
    | .ok (some obj) => get_items_ids_go cache transport t kw rest (acc ++ [obj])
    | .ok none => get_paginated transport kw t

/-- Python `get_items` (lines 95-109): dispatch on the presence of `id` / `ids` in
the keyword arguments. -/
def get_items (cache : String → Int → Option JObj) (transport : Fetch → JVal)
    (t : String) (kw : Kwargs) : ApiOutcome :=
  match kw.id with
  | some i => get_item cache transport t i
  | none =>
    match kw.ids with
    | some ids => get_items_ids_go cache transport t kw ids []
    | none => get_paginated transport kw t

/-! ## Response checking and delete (lines 197-259) -/

/-- The pieces of a `requests` response that `_check_response` and
`delete_items` inspect: the status code, the response headers, and the
parsed JSON body as string pairs (`none` when the body is not valid JSON,
in which case `response.json()` raises `ValueError`). -/
structure HttpResponse where
  status_code : Int
  headers : List (String × String)
  jsonBody : Option (List (String × String))

/-- Python `response.raise_for_status()` from the requests library: raises
`HTTPError` exactly for status codes in [400, 600). -/
def raise_for_status (r : HttpResponse) : Except PyError Unit :=
  if 400 ≤ r.status_code ∧ r.status_code < 600 then
    .error (.exception "HTTPError")
  else .ok ()

/-- The error message `_check_response` builds from the JSON body
(line 254). -/
def checkErrMsg (items : List (String × String)) : String :=
  String.intercalate "\n" (items.map (fun kv => kv.1 ++ ": " ++ kv.2))

/-- Python `_check_response` (lines 251-259).  On a 2xx status the response is
returned; otherwise: missing `content-type` header raises `KeyError`; a
JSON content type raises `Exception` with the joined error body (or
`ValueError` if the body does not parse); any other content type calls
`raise_for_status()`, and when that does not raise (status outside
[400,600)) the function falls off the end and returns `None`. -/
def check_response (r : HttpResponse) : Except PyError (Option HttpResponse) :=
  if r.status_code > 299 ∨ r.status_code < 200 then
    match alookup r.headers "content-type" with
    | none => .error (.keyError "content-type")
    | some ct =>
      if strContainsSub ct "application/json" then
        match r.jsonBody with
        | none => .error (.exception "ValueError")
        | some items => .error (.exception (checkErrMsg items))
      else
        match raise_for_status r with
        | .error e => .error e
        | .ok _ => .ok none
  else .ok (some r)

/-- Python `delete_items` (lines 197-203), given the response the Transport
returned for the single DELETE request (both the batch and the
single-entity branch issue one DELETE through `_delete`, which applies
`_check_response`).  Line 202 then reads `response.status_code` — an
`AttributeError` when `_check_response` returned `None` — and line 203 is
the bare attribute access `response.raise_for_status` without a call: it
has no effect. -/
def delete_items (r : HttpResponse) : Except PyError Unit :=
  match check_response r with
  | .error e => .error e
  | .ok none => .error (.attributeError "status_code")
  | .ok (some resp) =>
    if resp.status_code ≠ 200 then .ok () else .ok ()

/-! ## Create/update response decoding (lines 231-249) -/

/-- The result shapes `build_create_response` can produce. -/
inductive CreateResponseR where
  | ticketAudit (ticket : Option JObj) (audit : Option JObj)
  | user (u : JObj)
  | jobStatus (j : JObj)

/-- Python `build_ticket_audit` (lines 243-249): `TicketAudit()` starts with
neither field; each of `.ticket` / `.audit` is set only when its key is
present in the response. -/
def build_ticket_audit (r : JObj) : Except PyError CreateResponseR := do
  let t ← match jget r "ticket" with
    | some v => Option.some <$> object_from_json_v v
    | none => pure none
  let a ← match jget r "audit" with
    | some v => Option.some <$> object_from_json_v v
    | none => pure none
  pure (.ticketAudit t a)

/-- Python `build_create_response` (lines 231-241).

Line 232 reads `if 'ticket' and 'audit' in response_json:`.  Python parses
this as `'ticket' and ('audit' in response_json)`; the non-empty string
literal `'ticket'` is truthy, so the test reduces to
`'audit' in response_json` alone.  In the final `else`, line 239 evaluates
`"Unknown Response: " + response_json` — concatenating a string and a dict
raises `TypeError` while the exception message is being built. -/
def build_create_response (r : JObj) : Except PyError CreateResponseR :=
  if (jget r "audit").isSome then build_ticket_audit r
  else if (jget r "user").isSome then
    match jget r "user" with
    | some v => CreateResponseR.user <$> map_object "user" v
    | none => .error (.keyError "user")
  else if (jget r "job_status").isSome then
    match jget r "job_status" with
    | some v => CreateResponseR.jobStatus <$> map_object "job_status" v
    | none => .error (.keyError "job_status")
  else .error .typeError

/-! ## Create (lines 171-180) -/

/-- A Python entity object as `create_items` sees it: its class name and
its attribute dictionary (`vars(obj)`). -/
structure PyEntity where
  clsName : String
  attrs : JObj

/-- The argument of `create_items`: a Python list of entities, or a single
entity object. -/
inductive CreateArg where
  | objs (xs : List PyEntity)
  | one (x : PyEntity)

/-- The POST request `_post` would issue: whether the batch endpoint was
selected, the payload key, and the payload value under it. -/
structure PostRequest where
  createMany : Bool
  payloadKey : String
  payload : JVal

/-- Python `create_items` (lines 171-180), up to the request it issues.  The
function's return value is the value of `_post` when a request is made;
`none` models the path where both guards are false — for an empty list,
`isinstance(items, list) and items` is false (empty list is falsy) and
`elif items:` is also false — so the function falls through, issues no
request, and returns Python `None`. -/
def create_items (items : CreateArg) : Option PostRequest :=
  match items with
  | .objs [] => none
  | .objs (x :: xs) =>
    some ⟨true, x.clsName.toLower ++ "s",
          .arr ((x :: xs).map (fun i => JVal.obj i.attrs))⟩
  | .one x => some ⟨false, x.clsName.toLower, .obj x.attrs⟩

/-! ## Serialization for update (lines 182-195) -/

/-- Python `update_items` serializes a single entity as `vars(items)` (line 192)
and a batch as `[vars(i) for i in items]` (line 187): the attribute mapping
itself. Modelled from the spec for the part outside src/: the entity
classes under zenpy/lib/objects are not in the analysed source; per spec §3
an Entity is "a set of typed fields populated from JSON", so `vars` yields
exactly the fields installed by `_object_from_json` (the `api`
back-reference is serialized to `null` by `ApiObjectEncoder` and adds no
payload field). -/
def vars_of (e : JObj) : JObj := e

/-! ## Auxiliary lemmas -/

theorem alookup_eq_none {α : Type} (l : List (String × α)) (k : String)
    (h : ¬ k ∈ l.map Prod.fst) : alookup l k = none := by
  induction l with
  | nil => rfl
  | cons kv rest ih =>
    unfold alookup
    rw [if_neg]
    · exact ih (fun hm => h (by simp [hm]))
    · intro hk
      exact h (by simp [hk])

theorem cacheable_mem {t : String} (h : cacheableTypes.contains t = true) :
    t ∈ cacheableTypes := by simpa using h

theorem cacheable_not_skip {t : String} (h : cacheableTypes.contains t = true) :
    t ∉ skip_cache := by
  have hm := cacheable_mem h
  simp only [cacheableTypes, List.mem_cons, List.not_mem_nil, or_false] at hm
  rcases hm with rfl | rfl | rfl | rfl | rfl | rfl <;> simp [skip_cache]

theorem cacheable_class_ok {t : String} (h : cacheableTypes.contains t = true) :
    class_for_type t = .ok () := by
  have hm := cacheable_mem h
  simp only [cacheableTypes, List.mem_cons, List.not_mem_nil, or_false] at hm
  rcases hm with rfl | rfl | rfl | rfl | rfl | rfl <;> rfl

theorem query_cache_cacheable {cache : String → Int → Option JObj} {t : String}
    {id : Int} (h : cacheableTypes.contains t = true) :
    query_cache cache t id = .ok (cache t id) := by
  simp [query_cache, cacheable_not_skip h, cacheable_mem h]

theorem get_paginated_fetches (transport : Fetch → JVal) (kw : Kwargs)
    (t : String) : (get_paginated transport kw t).fetches = [.pageQuery kw] := by
  unfold get_paginated
  cases hu : update_caches_v (transport (.pageQuery kw)) with
  | error e => simp [hu]
  | ok ins =>
    cases hg : rgenInit t (transport (.pageQuery kw)) with
    | error e => simp [hu, hg]
    | ok g => simp [hu, hg]

theorem ids_go_all_hit (cache : String → Int → Option JObj)
    (transport : Fetch → JVal) (t : String) (kw : Kwargs)
    (ids : List Int) (acc : List JObj)
    (hv : cacheableTypes.contains t = true)
    (h : ∀ i ∈ ids, (cache t i).isSome) :
    get_items_ids_go cache transport t kw ids acc
      = ⟨.ok (.entities (acc ++ ids.map (fun i => (cache t i).getD []))), [], []⟩ := by
  induction ids generalizing acc with
  | nil => simp [get_items_ids_go]
  | cons i rest ih =>
    have hi : (cache t i).isSome := h i (by simp)
    obtain ⟨obj, hobj⟩ := Option.isSome_iff_exists.mp hi
    rw [get_items_ids_go, query_cache_cacheable hv, hobj]
    show get_items_ids_go cache transport t kw rest (acc ++ [obj]) = _
    rw [ih (acc ++ [obj]) (fun j hj => h j (by simp [hj]))]
    simp [hobj]

theorem ids_go_miss (cache : String → Int → Option JObj)
    (transport : Fetch → JVal) (t : String) (kw : Kwargs)
    (ids : List Int) (acc : List JObj)
    (hv : cacheableTypes.contains t = true)
    (h : ∃ i ∈ ids, cache t i = none) :
    get_items_ids_go cache transport t kw ids acc
      = get_paginated transport kw t := by
  induction ids generalizing acc with
  | nil => simp at h
  | cons i rest ih =>
    rw [get_items_ids_go, query_cache_cacheable hv]
    cases hc : cache t i with
    | none => rfl
    | some obj =>
      apply ih
      obtain ⟨j, hj, hjn⟩ := h
      rcases List.mem_cons.mp hj with rfl | hjr
      · rw [hc] at hjn; cases hjn
      · exact ⟨j, hjr, hjn⟩

theorem setattr_fresh (acc : JObj) (k : String) (v : JVal)
    (h : ¬ k ∈ acc.map Prod.fst) : setattr acc k v = acc ++ [(k, v)] := by
  unfold setattr
  rw [if_neg]
  simpa using h

theorem foldl_setattr_fresh (l acc : JObj)
    (hfresh : ∀ k ∈ l.map Prod.fst, ¬ k ∈ acc.map Prod.fst)
    (hnd : (l.map Prod.fst).Nodup) :
    l.foldl (fun a kv => setattr a kv.1 kv.2) acc = acc ++ l := by
  induction l generalizing acc with
  | nil => simp
  | cons kv rest ih =>
    have hk : ¬ kv.1 ∈ acc.map Prod.fst := hfresh kv.1 (by simp)
    rw [List.foldl_cons, setattr_fresh acc kv.1 kv.2 hk]
    rw [ih (acc ++ [(kv.1, kv.2)])]
    · simp
    · intro k hkr
      simp only [List.map_append, List.mem_append]
      rintro (hin | hin)
      · exact hfresh k (by simp [hkr]) hin
      · simp only [List.map_cons, List.map_nil, List.mem_singleton] at hin
        subst hin
        exact (List.nodup_cons.mp hnd).1 hkr
    · exact (List.nodup_cons.mp hnd).2

theorem renameKey_not_reserved (k : String) : ¬ renameKey k ∈ reservedNames := by
  unfold renameKey
  by_cases hr : k ∈ reservedNames
  · rw [if_pos hr]
    simp only [reservedNames, List.mem_cons, List.not_mem_nil, or_false] at hr ⊢
    rcases hr with rfl | rfl | rfl <;> decide
  · rwa [if_neg hr]

theorem renameKey_idem (k : String) : renameKey (renameKey k) = renameKey k := by
  conv_lhs => rw [renameKey]
  rw [if_neg (renameKey_not_reserved k)]

theorem renameKey_inj {x y : String}
    (hx : ¬ x ∈ ["_results", "_metadata", "_from"])
    (hy : ¬ y ∈ ["_results", "_metadata", "_from"])
    (hxy : renameKey x = renameKey y) : x = y := by
  unfold renameKey at hxy
  by_cases hxr : x ∈ reservedNames <;> by_cases hyr : y ∈ reservedNames
  · rw [if_pos hxr, if_pos hyr] at hxy
    simp only [reservedNames, List.mem_cons, List.not_mem_nil, or_false] at hxr hyr
    rcases hxr with rfl | rfl | rfl <;> rcases hyr with rfl | rfl | rfl <;>
      first | rfl | (exfalso; exact absurd hxy (by decide))
  · rw [if_pos hxr, if_neg hyr] at hxy
    exfalso
    simp only [reservedNames, List.mem_cons, List.not_mem_nil, or_false] at hxr
    rcases hxr with rfl | rfl | rfl <;> exact hy (by rw [← hxy]; decide)
  · rw [if_neg hxr, if_pos hyr] at hxy
    exfalso
    simp only [reservedNames, List.mem_cons, List.not_mem_nil, or_false] at hyr
    rcases hyr with rfl | rfl | rfl <;> exact hx (by rw [hxy]; decide)
  · rwa [if_neg hxr, if_neg hyr] at hxy

theorem object_from_json_fields_eq (q : JObj)
    (hnd : ((q.map (fun kv => (renameKey kv.1, kv.2))).map Prod.fst).Nodup) :
    object_from_json_fields q = q.map (fun kv => (renameKey kv.1, kv.2)) := by
  show q.foldl (fun attrs kv => setattr attrs (renameKey kv.1) kv.2) []
      = q.map (fun kv => (renameKey kv.1, kv.2))
  have hfm := List.foldl_map (fun kv : String × JVal => (renameKey kv.1, kv.2))
    (fun (a : JObj) (kv : String × JVal) => setattr a kv.1 kv.2) q []
  rw [show (q.foldl (fun attrs kv => setattr attrs (renameKey kv.1) kv.2) [])
      = ((q.map (fun kv => (renameKey kv.1, kv.2))).foldl
          (fun (a : JObj) kv => setattr a kv.1 kv.2) []) from hfm.symm]
  rw [foldl_setattr_fresh _ [] (by simp) hnd]
  simp

/-! ## Claim C1 -/

/-- A two-page scenario: page 1 holds two user items and a next-page
locator. -/
def c1page1 : JVal :=
  .obj [("users", .arr [.obj [("id", .num 1)], .obj [("id", .num 2)]]),
        ("next_page", .str "https://example.zendesk.com/page2")]

/-- The generator `ResultGenerator(api, 'user', page1)` constructs. -/
def c1gen0 : RGen :=
  ⟨c1page1, .arr [.obj [("id", .num 1)], .obj [("id", .num 2)]], 0, "users"⟩

/-- Claim C1: over a two-page result set the claim expects three entities in
order, then StopIteration, with the second page fetched exactly once.  The
code instead yields the two first-page entities and then raises
`AttributeError` on the third call: line 432 evaluates
`self._json._get('next_page')` — a dict has no attribute `_get` — before
`get_as_json` can run, so the Transport is never contacted at all (every
fetch log is empty). -/
theorem c1_pagination_attribute_error :
    rgenInit "user" c1page1 = .ok c1gen0
  ∧ (c1gen0.next).ret = .ok [("id", JVal.num 1)]
  ∧ (c1gen0.next).fetches = []
  ∧ (c1gen0.next.gen.next).ret = .ok [("id", JVal.num 2)]
  ∧ (c1gen0.next.gen.next).fetches = []
  ∧ (c1gen0.next.gen.next.gen.next).ret = .error (.attributeError "_get")
  ∧ (c1gen0.next.gen.next.gen.next).fetches = [] :=
  ⟨rfl, rfl, rfl, rfl, rfl, rfl, rfl⟩

/-! ## Claim C2 -/

/-- Claim C2: a bulk-by-ids lookup in which every id is cached returns the
cached entities in id order and issues zero network calls; as soon as any
id misses, the partial cache results are abandoned — the whole outcome
(result, fetches and cache insertions) is exactly that of one fresh
paginated query carrying the whole original kwargs (hence the full id
set), so there are never per-id calls and never a mixed cache+network
result — and that single query is the only fetch issued. -/
theorem c2_bulk_ids_cache_policy (cache : String → Int → Option JObj)
    (transport : Fetch → JVal) (t : String) (ids : List Int)
    (hv : cacheableTypes.contains t = true) :
    ((∀ i ∈ ids, (cache t i).isSome) →
       get_items cache transport t ⟨none, some ids⟩
         = ⟨.ok (.entities (ids.map (fun i => (cache t i).getD []))), [], []⟩)
  ∧ ((∃ i ∈ ids, cache t i = none) →
       get_items cache transport t ⟨none, some ids⟩
         = get_paginated transport ⟨none, some ids⟩ t
     ∧ (get_items cache transport t ⟨none, some ids⟩).fetches
         = [.pageQuery ⟨none, some ids⟩]) := by
  constructor
  · intro h
    show get_items_ids_go cache transport t ⟨none, some ids⟩ ids [] = _
    rw [ids_go_all_hit cache transport t ⟨none, some ids⟩ ids [] hv h]
    simp
  · intro h
    have heq : get_items cache transport t ⟨none, some ids⟩
        = get_paginated transport ⟨none, some ids⟩ t := by
      show get_items_ids_go cache transport t ⟨none, some ids⟩ ids [] = _
      exact ids_go_miss cache transport t ⟨none, some ids⟩ ids [] hv h
    exact ⟨heq, by rw [heq]; exact get_paginated_fetches transport ⟨none, some ids⟩ t⟩

/-- Witness: with only id 1 cached, `getMany([1])` returns the cached
entity and issues no fetch, and `getMany([1, 2])` (id 2 misses) is exactly
one fresh full query for both ids. -/
theorem c2_bulk_ids_cache_policy_witness :
    get_items (fun _ i => if i = 1 then some [("id", JVal.num 1)] else none)
        (fun _ => .obj []) "user" ⟨none, some [1]⟩
      = ⟨.ok (.entities [[("id", JVal.num 1)]]), [], []⟩
  ∧ get_items (fun _ i => if i = 1 then some [("id", JVal.num 1)] else none)
        (fun _ => .obj []) "user" ⟨none, some [1, 2]⟩
      = get_paginated (fun _ => .obj []) ⟨none, some [1, 2]⟩ "user" :=
  ⟨(c2_bulk_ids_cache_policy
      (fun _ i => if i = 1 then some [("id", JVal.num 1)] else none)
      (fun _ => .obj []) "user" [1] (by decide)).1 (by decide),
   ((c2_bulk_ids_cache_policy
      (fun _ i => if i = 1 then some [("id", JVal.num 1)] else none)
      (fun _ => .obj []) "user" [1, 2] (by decide)).2
      ⟨2, by decide, rfl⟩).1⟩

/-! ## Claim C3 -/

/-- Claim C3: the claim says only a response with BOTH `ticket` and `audit`
keys yields a TicketAudit, and that a response with neither `user` nor
`job_status` raises an unknown-response error.  The code's condition
`if 'ticket' and 'audit' in response_json:` tests only `audit`, so a
response carrying `audit` alone (no `ticket`, no `user`, no `job_status`)
is decoded into a TicketAudit with no ticket instead of raising. -/
theorem c3_audit_only_builds_ticket_audit :
    build_create_response [("audit", .obj [("id", .num 5)])]
      = .ok (.ticketAudit none (some [("id", JVal.num 5)])) := rfl

/-! ## Claim C4 -/

/-- A ticket item whose raw json happens to contain a cacheable `user`
key. -/
def c4item : JVal := .obj [("id", .num 1), ("user", .obj [("id", .num 7)])]

/-- A one-page generator over that item. -/
def c4gen : RGen :=
  ⟨.obj [("tickets", .arr [c4item])], .arr [c4item], 0, "tickets"⟩

/-- Counterexample to claim C4: drawing an item via `next()` DOES perform a
cache insertion beyond the page-level insert — line 442 passes the drawn
item's raw json to `update_caches`, which caches the object found under the
item's `user` key. -/
theorem c4_item_draw_inserts :
    (c4gen.next).inserts = [⟨"user", .num 7, [("id", JVal.num 7)]⟩]
  ∧ (c4gen.next).inserts ≠ [] :=
  ⟨rfl, fun h => nomatch h⟩

/-- Claim C4 as amended: the page-level insert of the raw page data happens
exactly once, in `get_paginated`, when the page is fetched; but each item
draw additionally passes the drawn item's raw json to `update_caches`,
whose insertions (possibly none, possibly several) are performed on every
draw. -/
theorem c4_amended_caching (transport : Fetch → JVal) (kw : Kwargs)
    (t : String) (pageIns : List Insertion) (g : RGen) (len : Nat)
    (item : JVal) (itemIns : List Insertion)
    (hpage : update_caches_v (transport (.pageQuery kw)) = .ok pageIns)
    (hlen : pyLen g.values = .ok len) (hpos : g.position < len)
    (htr : pyTruthy g.values = true)
    (hitem : pyIndex g.values g.position = .ok item)
    (hins : update_caches_v item = .ok itemIns) :
    (get_paginated transport kw t).inserts = pageIns
  ∧ (get_paginated transport kw t).fetches = [.pageQuery kw]
  ∧ (g.next).inserts = itemIns := by
  refine ⟨?_, get_paginated_fetches transport kw t, ?_⟩
  · unfold get_paginated
    simp only [hpage]
    cases hg : rgenInit t (transport (.pageQuery kw)) with
    | error e => simp [hg]
    | ok g2 => simp [hg]
  · unfold RGen.next
    simp only [hlen]
    rw [if_neg (by omega : ¬ g.position ≥ len)]
    simp only [htr, Bool.not_true, Bool.false_eq_true, if_false]
    simp only [hitem, hins]
    split <;> first
      | rfl
      | (split <;> rfl)

/-- Witness for the amended C4 at a concrete page and generator state. -/
theorem c4_amended_caching_witness :
    (get_paginated (fun _ => .obj []) ⟨none, none⟩ "user").inserts = []
  ∧ (get_paginated (fun _ => .obj []) ⟨none, none⟩ "user").fetches
      = [.pageQuery ⟨none, none⟩]
  ∧ ((⟨.obj [], .arr [.obj [("id", JVal.num 3)]], 0, "users"⟩ : RGen).next).inserts
      = [] :=
  c4_amended_caching (fun _ => .obj []) ⟨none, none⟩ "user" []
    ⟨.obj [], .arr [.obj [("id", JVal.num 3)]], 0, "users"⟩ 1
    (.obj [("id", JVal.num 3)]) [] rfl rfl (by decide) rfl rfl rfl

/-! ## Claim C5 -/

/-- Claim C5: `get_item` checks the cache first and a hit is returned with
no fetch and no insertion; on a miss exactly one fetch is issued; a
response containing `next_page` becomes a ResultGenerator (and nothing is
written to the cache on that path); otherwise the response is written to
the cache and the single mapped entity is returned. -/
theorem c5_single_lookup (cache : String → Int → Option JObj)
    (transport : Fetch → JVal) (t : String) (id : Int)
    (hv : cacheableTypes.contains t = true) :
    (∀ e, cache t id = some e →
       get_item cache transport t id = ⟨.ok (.entity e), [], []⟩)
  ∧ (cache t id = none → (get_item cache transport t id).fetches = [.byId id])
  ∧ (cache t id = none →
       jContains (transport (.byId id)) "next_page" = .ok true →
       (get_item cache transport t id).inserts = []
     ∧ ∀ g, rgenInit t (transport (.byId id)) = .ok g →
         (get_item cache transport t id).result = .ok (.generator g))
  ∧ (∀ ins v e, cache t id = none →
       jContains (transport (.byId id)) "next_page" = .ok false →
       update_caches_v (transport (.byId id)) = .ok ins →
       jGetItemV (transport (.byId id)) t = .ok v →
       object_from_json_v v = .ok e →
       (get_item cache transport t id).inserts = ins
     ∧ (get_item cache transport t id).result = .ok (.entity e)) := by
  refine ⟨?_, ?_, ?_, ?_⟩
  · intro e he
    rw [get_item, query_cache_cacheable hv, he]
  · intro hmiss
    simp only [get_item, query_cache_cacheable hv, hmiss]
    cases hc : jContains (transport (.byId id)) "next_page" with
    | error e => simp [hc]
    | ok b =>
      cases b
      · simp only [hc]
        cases hu : update_caches_v (transport (.byId id)) with
        | error e => simp [hu]
        | ok ins =>
          simp only [hu]
          cases hcl : class_for_type t with
          | error e => simp [hcl]
          | ok u =>
            simp only [hcl]
            cases hj : jGetItemV (transport (.byId id)) t with
            | error e => simp [hj]
            | ok v =>
              simp only [hj]
              cases ho : object_from_json_v v with
              | error e => simp [ho]
              | ok e2 => simp [ho]
      · simp only [hc]
        cases hg : rgenInit t (transport (.byId id)) with
        | error e => simp [hg]
        | ok g => simp [hg]
  · intro hmiss hnp
    simp only [get_item, query_cache_cacheable hv, hmiss, hnp]
    constructor
    · cases hg : rgenInit t (transport (.byId id)) with
      | error e => simp [hg]
      | ok g => simp [hg]
    · intro g hg
      simp [hg]
  · intro ins v e hmiss hnp hu hj ho
    simp only [get_item, query_cache_cacheable hv, hmiss, hnp, hu,
               cacheable_class_ok hv, hj, ho]
    exact ⟨trivial, trivial⟩

/-- Witness: a cached user is returned directly, with no fetch and no
insertion. -/
theorem c5_single_lookup_witness :
    get_item (fun _ _ => some [("id", JVal.num 1)]) (fun _ => .obj [])
        "user" 1
      = ⟨.ok (.entity [("id", JVal.num 1)]), [], []⟩ :=
  (c5_single_lookup (fun _ _ => some [("id", JVal.num 1)]) (fun _ => .obj [])
    "user" 1 (by decide)).1 [("id", JVal.num 1)] rfl

/-! ## Claim C6 -/

/-- Claim C6: a delete call completes without error exactly when the DELETE
response has a 2xx status; any status outside [200, 299] surfaces as a
raised error (the `Exception` with the parsed JSON error body, the
`HTTPError` from `raise_for_status`, or — for the remaining corner
statuses — the `KeyError`/`AttributeError` on the fall-through paths). -/
theorem c6_delete_status (r : HttpResponse) :
    delete_items r = .ok () ↔ 200 ≤ r.status_code ∧ r.status_code ≤ 299 := by
  unfold delete_items check_response
  by_cases h : r.status_code > 299 ∨ r.status_code < 200
  · rw [if_pos h]
    constructor
    · intro hc
      exfalso
      cases halk : alookup r.headers "content-type" with
      | none => simp only [halk] at hc; cases hc
      | some ct =>
        simp only [halk] at hc
        by_cases hjs : strContainsSub ct "application/json" = true
        · rw [if_pos hjs] at hc
          cases hb : r.jsonBody with
          | none => simp only [hb] at hc; cases hc
          | some items => simp only [hb] at hc; cases hc
        · rw [if_neg hjs] at hc
          unfold raise_for_status at hc
          by_cases hr : 400 ≤ r.status_code ∧ r.status_code < 600
          · rw [if_pos hr] at hc; cases hc
          · rw [if_neg hr] at hc; cases hc
    · intro hin
      exfalso
      omega
  · rw [if_neg h]
    push_neg at h
    constructor
    · intro _
      omega
    · intro _
      show (if r.status_code ≠ 200 then Except.ok () else Except.ok ())
          = Except.ok ()
      by_cases h200 : r.status_code ≠ 200
      · rw [if_pos h200]
      · rw [if_neg h200]

/-- Witness: a 204 DELETE response completes without error. -/
theorem c6_delete_status_witness :
    delete_items ⟨204, [("content-type", "application/json")], some []⟩
      = .ok () :=
  (c6_delete_status
    ⟨204, [("content-type", "application/json")], some []⟩).mpr (by decide)

/-! ## Claim C7 -/

/-- Claim C7: mapping a payload to an entity and serializing it back for an
update request reproduces the original field values, with fields named
`results`, `metadata`, `from` carried consistently under `_results`,
`_metadata`, `_from`; re-mapping the serialized form is stable, so the
disambiguated names round-trip in both directions.  The payload is assumed
well formed: distinct keys, none already spelled in disambiguated form. -/
theorem c7_round_trip (p : JObj)
    (hnd : (p.map Prod.fst).Nodup)
    (hf : ∀ k ∈ p.map Prod.fst, ¬ k ∈ ["_results", "_metadata", "_from"]) :
    vars_of (object_from_json_fields p)
        = p.map (fun kv => (renameKey kv.1, kv.2))
    ∧ object_from_json_fields (vars_of (object_from_json_fields p))
        = object_from_json_fields p := by
  have hkeys : (p.map (fun kv => (renameKey kv.1, kv.2))).map Prod.fst
      = (p.map Prod.fst).map renameKey := by
    simp [List.map_map]
  have hnd2 : ((p.map (fun kv => (renameKey kv.1, kv.2))).map Prod.fst).Nodup := by
    rw [hkeys]
    exact List.Nodup.map_on
      (fun x hx y hy hxy => renameKey_inj (hf x hx) (hf y hy) hxy) hnd
  have h1 : object_from_json_fields p = p.map (fun kv => (renameKey kv.1, kv.2)) :=
    object_from_json_fields_eq p hnd2
  refine ⟨h1, ?_⟩
  show object_from_json_fields (object_from_json_fields p) = object_from_json_fields p
  rw [h1]
  have hself : (p.map (fun kv => (renameKey kv.1, kv.2))).map
      (fun kv => (renameKey kv.1, kv.2)) = p.map (fun kv => (renameKey kv.1, kv.2)) := by
    rw [List.map_map]
    apply List.map_congr_left
    intro kv _
    simp [Function.comp, renameKey_idem]
  rw [object_from_json_fields_eq _ (by rw [hself]; exact hnd2), hself]

/-- Witness: a payload with a reserved `from` field maps and serializes to
the disambiguated `_from` with its value intact. -/
theorem c7_round_trip_witness :
    vars_of (object_from_json_fields
        [("from", .num 1), ("subject", .str "hi"), ("results", .arr [])])
      = [("_from", JVal.num 1), ("subject", JVal.str "hi"),
         ("_results", JVal.arr [])] :=
  (c7_round_trip
    [("from", .num 1), ("subject", .str "hi"), ("results", .arr [])]
    (by decide) (by decide)).1

/-! ## Claim C8 -/

/-- Counterexample to claim C8: for the non-cacheable type `topic`,
`query_cache` does not report a miss — it raises `KeyError` (only
`job_status` is in `skip_cache`), and `add_to_cache` raises `KeyError` as
well instead of silently ignoring the put. -/
theorem c8_topic_lookup_raises :
    query_cache (fun _ _ => none) "topic" 1 = .error (.keyError "topic")
  ∧ query_cache (fun _ _ => none) "topic" 1 ≠ .ok none
  ∧ add_to_cache "topic" (.obj []) = .error (.keyError "topic") := by
  refine ⟨rfl, ?_, rfl⟩
  intro h
  rw [show query_cache (fun _ _ => none) "topic" 1
      = .error (.keyError "topic") from rfl] at h
  cases h

/-- Claim C8 as amended: among entity types outside the cacheable set, only
`job_status` (the sole member of `skip_cache`) reports a lookup miss
without raising; for every other such type `query_cache` raises `KeyError`,
and `add_to_cache` raises `KeyError` for every type outside `cache_mapping`
(including `job_status`, since `add_to_cache` has no skip guard). -/
theorem c8_amended_noncacheable (t : String)
    (cache : String → Int → Option JObj) (id : Int) (js : JVal)
    (h : ¬ t ∈ cacheableTypes) :
    (t = "job_status" → query_cache cache t id = .ok none)
  ∧ (t ≠ "job_status" → query_cache cache t id = .error (.keyError t))
  ∧ add_to_cache t js = .error (.keyError t) := by
  refine ⟨?_, ?_, ?_⟩
  · rintro rfl
    rfl
  · intro hne
    have hsk : ¬ t ∈ skip_cache := by simpa [skip_cache] using hne
    simp [query_cache, hsk, h]
  · have hc : cacheableTypes.contains t = false := by simpa using h
    unfold add_to_cache
    rw [hc]
    rfl

/-- Witness: lookup for the non-cacheable type `attachment` raises
`KeyError`. -/
theorem c8_amended_noncacheable_witness :
    query_cache (fun _ _ => none) "attachment" 2
      = .error (.keyError "attachment") :=
  (c8_amended_noncacheable "attachment" (fun _ _ => none) 2 (.obj [])
    (by decide)).2.1 (by decide)

/-! ## Claim C9 -/

/-- Claim C9: constructing a ResultGenerator with a result key outside its
endpoint mapping (anything other than user, ticket, group, results,
organization, topic, comment) raises `KeyError` at construction, before any
item can be yielded. -/
theorem c9_unmapped_key_raises (key : String) (js : JVal)
    (h : ¬ key ∈ ["user", "ticket", "group", "results", "organization",
                  "topic", "comment"]) :
    rgenInit key js = .error (.keyError key) := by
  have hl : alookup endpoint_mapping key = none := by
    apply alookup_eq_none
    simpa [endpoint_mapping] using h
  rw [rgenInit, hl]

/-- Witness: the result key `brand` fails at construction. -/
theorem c9_unmapped_key_raises_witness :
    rgenInit "brand" (.obj []) = .error (.keyError "brand") :=
  c9_unmapped_key_raises "brand" (.obj []) (by decide)

/-! ## Claim C10 -/

/-- Claim C10: calling create with an empty list issues no network request
and returns Python `None` — both truthiness guards of `create_items` are
false for `[]`, so the function falls through as a silent no-op. -/
theorem c10_empty_create_noop : create_items (.objs []) = none := rfl

end Zenpy
